import Mathlib

/-!
Shallow embedding of the reconciliation core of `rbxsync` (files
`src/commands.rs`, `src/state.rs`, `src/api/mod.rs`, `src/config.rs`),
together with theorems settling the frozen claims about it.

Remote HTTP calls, the file system and the SHA-256 fingerprinter are
modelled as oracles (plain functions / `Except` values) supplied in an
environment record; all decision logic is translated from the source.
-/

set_option autoImplicit false

namespace RbxSync

/-- Minimal model of `serde_json::Value` restricted to the shapes the
program inspects: null, booleans, integers, strings and objects
(association lists of fields).  Arrays never reach the inspected code
paths and are omitted. -/
inductive Json where
  | null
  | bool (b : Bool)
  | num (n : Int)
  | str (s : String)
  | obj (fields : List (String × Json))

/-- Lookup in an association list, first match wins; mirrors
`HashMap::get` / serde field lookup (maps in the program never hold
duplicate keys). -/
def lookupAssoc {α β : Type} [DecidableEq α] : List (α × β) → α → Option β
  | [], _ => none
  | (k, v) :: rest, q => if q = k then some v else lookupAssoc rest q

/-- Insert-or-replace in an association list; mirrors `HashMap::insert`
up to ordering (only `lookupAssoc` observations are used). -/
def insertAssoc {α β : Type} [DecidableEq α] : List (α × β) → α → β → List (α × β)
  | [], k, v => [(k, v)]
  | (k1, v1) :: rest, k, v => if k1 = k then (k, v) :: rest else (k1, v1) :: insertAssoc rest k v

/-- Model of `serde_json` `Value` indexing `item["k"]`: returns the field
when the value is an object holding it, `Null` otherwise (serde_json's
`Index` impl returns `&Value::Null` for missing keys / non-objects). -/
def Json.getField : Json → String → Json
  | .obj fields, k =>
    match lookupAssoc fields k with
    | some v => v
    | none => .null
  | _, _ => .null

/-- Model of `Value::as_str`. -/
def Json.as_str : Json → Option String
  | .str s => some s
  | _ => none

/-- Model of `Value::as_u64`: succeeds exactly on integers in `[0, 2^64)`. -/
def Json.as_u64 : Json → Option Nat
  | .num n => if 0 ≤ n ∧ n < (2 : Int) ^ 64 then some n.toNat else none
  | _ => none

/-- Model of `Value::as_bool`. -/
def Json.as_bool : Json → Option Bool
  | .bool b => some b
  | _ => none

/-! ## Remote directory construction (`commands.rs` lines 79-85, 145-151, 197-203)

Each `sync_*` function builds a `HashMap<String, u64>` from the items of a
single listing response, keeping only items whose `"name"` field is a string
and whose `"id"` field is a `u64`. -/

/-- One step of the remote-map loop: the body of
`for item in existing.data { if let (Some(name), Some(id)) = ... }`. -/
def rmStep (acc : List (String × Nat)) (item : Json) : List (String × Nat) :=
  match (item.getField "name").as_str, (item.getField "id").as_u64 with
  | some name, some id => insertAssoc acc name id
  | _, _ => acc

/-- The remote directory map built from one listing page's items, exactly as
the `for` loop over `existing.data` builds it.  Total: malformed items are
skipped, never an error. -/
def build_remote_map (items : List Json) : List (String × Nat) :=
  items.foldl rmStep []

/-- An item contributes to the remote map iff its `"name"` is a string and
its `"id"` is a `u64`. -/
def wellFormedItem (item : Json) : Bool :=
  ((item.getField "name").as_str).isSome && ((item.getField "id").as_u64).isSome

/-- Step function computing, along the item list, the id of the last
well-formed item carrying a given name. -/
def lastStep (name : String) (acc : Option Nat) (item : Json) : Option Nat :=
  match (item.getField "name").as_str, (item.getField "id").as_u64 with
  | some n, some id => if name = n then some id else acc
  | _, _ => acc

/-- The id of the last well-formed item in `items` whose name is `name`
(last-seen-wins reading of the listing). -/
def lastWellFormedId (items : List Json) (name : String) : Option Nat :=
  items.foldl (lastStep name) none

/-! ## Listing responses and first-page map (`api/mod.rs` lines 70-77, 428-437)

`ListResponse` models the deserialized listing body.  The `sync_*` functions
call `client.list_game_passes(universe_id, None)` exactly once: only the
page for cursor `None` is ever fetched, the `next_page_cursor` field is
never read. -/

/-- Model of `api::ListResponse<serde_json::Value>`. -/
structure ListResponse where
  data : List Json
  next_page_cursor : Option String

/-- Remote-map construction as `sync_game_passes` performs it (lines 79-85):
one listing call with cursor `None`, whose items feed `build_remote_map`;
the cursor of the response is ignored and no further page is requested.
The listing endpoint is the oracle `list : Option String → Except String ListResponse`
(`Except.error` = non-success HTTP status propagated by `?`). -/
def build_first_page_map (list : Option String → Except String ListResponse) :
    Except String (List (String × Nat)) :=
  match list none with
  | .error e => .error e
  | .ok resp => .ok (build_remote_map resp.data)

/-! ## State ledger (`state.rs`)

`SyncState` holds three maps keyed by the remote numeric id; `HashMap` is
modelled as an association list observed through `lookupAssoc`. -/

/-- Model of `state::ResourceState`. -/
structure ResourceState where
  name : String
  description : Option String
  price : Option Nat
  is_for_sale : Option Bool
  is_enabled : Option Bool
  icon_hash : Option String
  icon_asset_id : Option Nat

/-- Model of `state::SyncState`. -/
structure SyncState where
  game_passes : List (Nat × ResourceState)
  developer_products : List (Nat × ResourceState)
  badges : List (Nat × ResourceState)

/-- Model of `Default` for `SyncState` (`#[derive(Default)]`): all three
maps empty. -/
def SyncState.empty : SyncState := ⟨[], [], []⟩

/-- Model of `SyncState::load` (`state.rs` lines 38-47).  The persisted
record is `none` when `.rbxsync/state.yaml` does not exist, otherwise
`some` of its text; `parse` is the `serde_yaml::from_str` oracle.  When no
record exists the function returns `Ok(Self::default())` without
consulting the parser. -/
def SyncState.load (persisted : Option String)
    (parse : String → Except String SyncState) : Except String SyncState :=
  match persisted with
  | none => .ok SyncState.empty
  | some content => parse content

/-- Model of `SyncState::update_game_pass` (`state.rs` lines 71-90): the
entry for `id` is replaced wholesale, with `is_enabled` fixed to `None`. -/
def SyncState.update_game_pass (s : SyncState) (id : Nat) (name : String)
    (description : Option String) (price : Option Nat) (is_for_sale : Option Bool)
    (icon_hash : Option String) (icon_asset_id : Option Nat) : SyncState :=
  let entry : ResourceState :=
    { name := name, description := description, price := price,
      is_for_sale := is_for_sale, is_enabled := none,
      icon_hash := icon_hash, icon_asset_id := icon_asset_id }
  { s with game_passes := insertAssoc s.game_passes id entry }

/-- Model of `SyncState::update_developer_product` (`state.rs` lines
99-117): entry replaced wholesale with `is_for_sale` and `is_enabled`
fixed to `None`. -/
def SyncState.update_developer_product (s : SyncState) (id : Nat) (name : String)
    (description : Option String) (price : Option Nat)
    (icon_hash : Option String) (icon_asset_id : Option Nat) : SyncState :=
  let entry : ResourceState :=
    { name := name, description := description, price := price,
      is_for_sale := none, is_enabled := none,
      icon_hash := icon_hash, icon_asset_id := icon_asset_id }
  { s with developer_products := insertAssoc s.developer_products id entry }

/-- Model of `SyncState::update_badge` (`state.rs` lines 126-144): entry
replaced wholesale with `price` and `is_for_sale` fixed to `None`. -/
def SyncState.update_badge (s : SyncState) (id : Nat) (name : String)
    (description : Option String) (is_enabled : Option Bool)
    (icon_hash : Option String) (icon_asset_id : Option Nat) : SyncState :=
  let entry : ResourceState :=
    { name := name, description := description, price := none,
      is_for_sale := none, is_enabled := is_enabled,
      icon_hash := icon_hash, icon_asset_id := icon_asset_id }
  { s with badges := insertAssoc s.badges id entry }

/-! ## Declared resources (`config.rs` lines 74-98) -/

/-- Model of `config::GamePassConfig`. -/
structure GamePassConfig where
  name : String
  description : Option String
  price_in_robux : Option Nat
  icon : Option String
  is_for_sale : Option Bool

/-- Model of `config::DeveloperProductConfig` (`price_in_robux` is a
mandatory `u32`). -/
structure DeveloperProductConfig where
  name : String
  description : Option String
  price_in_robux : Nat
  icon : Option String
  is_active : Option Bool

/-- Model of `config::BadgeConfig`. -/
structure BadgeConfig where
  name : String
  description : Option String
  icon : Option String
  is_enabled : Option Bool

/-! ## Ledger as `commands.rs` consumes it

`commands.rs` reads the ledger through `state.game_passes.get(&pass.name)`,
`state.get_game_pass_id(&pass.name)` and writes it through a four-argument
`state.update_game_pass(name, id, icon_hash, asset_id)` (lines 94, 101,
122, and the analogous product/badge lines).  These accessors are absent
from `src/state.rs` (which keys by id and has seven-argument updaters);
only their caller is in the sources. -/

/-- Modelled from the spec: the ledger entry view used by `commands.rs`
(name-keyed lookup returning the recorded remote id, icon hash and icon
asset id); §4.4 `findByName` / `upsert(identifier, entry)` describe the
missing `SyncState` accessors. -/
structure LedgerEntry where
  id : Nat
  icon_hash : Option String
  icon_asset_id : Option Nat

/-- Modelled from the spec: the per-category ledger map consumed by
`commands.rs`, keyed by resource name as its call sites
(`state.game_passes.get(&pass.name)`) require. -/
def CmdLedger : Type := List (String × LedgerEntry)

/-- Modelled from the spec: `state.get_game_pass_id(&pass.name)` (and the
product/badge `get(..).map(|r| r.id)` forms) — the recorded remote id for
a declared name, when the ledger has an entry. -/
def ledgerId (ledger : CmdLedger) (name : String) : Option Nat :=
  (lookupAssoc ledger name).map (fun e => e.id)

/-! ## Remote calls as an event trace

Every remote mutation the reconciler issues is recorded as an `Event`;
the claims about "no upload occurs" / "exactly one update call" are
statements about this trace. -/

/-- Remote calls issued by the reconciler, in order. -/
inductive Event where
  | uploadAsset (path : String)
  | createGamePass (body : List (String × Json))
  | updateGamePass (id : Nat) (patch : List (String × Json))
  | createDeveloperProduct (body : List (String × Json))
  | updateDeveloperProduct (id : Nat) (patch : List (String × Json))
  | createBadge (body : List (String × Json))
  | updateBadge (id : Nat) (patch : List (String × Json))

/-- Errors surfaced by the reconciliation pipeline (`anyhow` errors in the
source, discriminated here by origin). -/
inductive SyncError where
  | iconNotFound (path : String)
  | uploadFailed (msg : String)
  | listFailed (msg : String)
  | createFailed (msg : String)
  | createNoId
  | updateFailed (msg : String)

/-- Oracles for the file system and the remote service.  Functions model:
`Path::exists`, the SHA-256 hex digest of the file's current bytes
(`sha2::Sha256`, abstracted as a function of the path), the asset upload
pipeline (`upload_asset` followed by `parse::<u64>`, merged into one
`Except`), the listing endpoints, and the create/update endpoints whose
responses the reconciler inspects. -/
structure Env where
  fileExists : String → Bool
  fileHash : String → String
  upload : String → Except String Nat
  listGamePasses : Option String → Except String ListResponse
  listDeveloperProducts : Option String → Except String ListResponse
  listBadges : Option String → Except String ListResponse
  createGamePass : List (String × Json) → Except String Json
  createDeveloperProduct : List (String × Json) → Except String Json
  createBadge : List (String × Json) → Except String Json
  updateGamePass : Nat → List (String × Json) → Except String Unit
  updateDeveloperProduct : Nat → List (String × Json) → Except String Unit
  updateBadge : Nat → List (String × Json) → Except String Unit

/-- Model of `ensure_icon` (`commands.rs` lines 246-273).  `fileOk` is
`path.exists()`, `hash` the SHA-256 hex digest of the file's current
bytes, `entry` the consulted ledger entry, `upload` the outcome of
`upload_asset` + `parse::<u64>`.  Returns the `(asset_id, hash)` pair and
the trace of upload calls made. -/
def ensure_icon (fileOk : Bool) (hash : String) (entry : Option LedgerEntry)
    (upload : Except String Nat) (path : String) :
    Except SyncError (Nat × String) × List Event :=
  if fileOk = false then (.error (.iconNotFound path), [])
  else
    let doUpload : Except SyncError (Nat × String) × List Event :=
      match upload with
      | .ok aid => (.ok (aid, hash), [.uploadAsset path])
      | .error m => (.error (.uploadFailed m), [.uploadAsset path])
    match entry with
    | some s =>
      match s.icon_hash, s.icon_asset_id with
      | some sh, some sid => if sh = hash then (.ok (sid, hash), []) else doUpload
      | _, _ => doUpload
    | none => doUpload

/-- The icon-handling prologue of each `sync_*` loop body (`commands.rs`
lines 88-98 and analogues): when an icon is declared, join it onto the
assets directory and run `ensure_icon` against the ledger entry for the
resource's name; otherwise both `asset_id` and `icon_hash` stay `None`. -/
def icon_step (env : Env) (dir : String) (ledger : CmdLedger)
    (name : String) (icon : Option String) :
    Except SyncError (Option Nat × Option String) × List Event :=
  match icon with
  | none => (.ok (none, none), [])
  | some iconPath =>
    let path := dir ++ "/" ++ iconPath
    match ensure_icon (env.fileExists path) (env.fileHash path)
        (lookupAssoc ledger name) (env.upload path) path with
    | (.ok (aid, h), evs) => (.ok (some aid, some h), evs)
    | (.error e, evs) => (.error e, evs)

/-- Identity-resolution source (which of the three lookups produced the
id). -/
inductive IdSource where
  | fromLedger
  | fromRemote
  | created

/-- The id-resolution step shared by the three `sync_*` functions
(`commands.rs` lines 101-119, 165-179, 217-230): ledger lookup by name
first, then the remote directory map, and only when both miss is the
category's create call issued, whose response must carry a `u64` `"id"`. -/
def resolve_id (create : List (String × Json) → Except String Json)
    (mkCreate : List (String × Json) → Event)
    (ledger : CmdLedger) (remote : List (String × Nat)) (name : String)
    (body : List (String × Json)) :
    Except SyncError (Nat × IdSource) × List Event :=
  match ledgerId ledger name with
  | some sid => (.ok (sid, .fromLedger), [])
  | none =>
    match lookupAssoc remote name with
    | some rid => (.ok (rid, .fromRemote), [])
    | none =>
      match create body with
      | .error m => (.error (.createFailed m), [mkCreate body])
      | .ok resp =>
        match (resp.getField "id").as_u64 with
        | some id => (.ok (id, .created), [mkCreate body])
        | none => (.error .createNoId, [mkCreate body])

/-- Id resolution for game passes (`commands.rs` lines 101-119). -/
def resolve_pass_id (env : Env) (ledger : CmdLedger) (remote : List (String × Nat))
    (name : String) (body : List (String × Json)) :
    Except SyncError (Nat × IdSource) × List Event :=
  resolve_id env.createGamePass .createGamePass ledger remote name body

/-- Id resolution for developer products (`commands.rs` lines 165-179). -/
def resolve_product_id (env : Env) (ledger : CmdLedger) (remote : List (String × Nat))
    (name : String) (body : List (String × Json)) :
    Except SyncError (Nat × IdSource) × List Event :=
  resolve_id env.createDeveloperProduct .createDeveloperProduct ledger remote name body

/-- Id resolution for badges (`commands.rs` lines 217-230). -/
def resolve_badge_id (env : Env) (ledger : CmdLedger) (remote : List (String × Nat))
    (name : String) (body : List (String × Json)) :
    Except SyncError (Nat × IdSource) × List Event :=
  resolve_id env.createBadge .createBadge ledger remote name body

/-! ## Create bodies and update patches (`commands.rs`)

`serde_json::Map` insertion sequences are modelled as ordered field lists;
only key membership and values are observed. -/

/-- Create body for a game pass (`commands.rs` lines 108-115): name,
description defaulted to `""`, price defaulted to `0`, plus `iconAssetId`
when an icon asset was resolved. -/
def buildGamePassCreateBody (pass : GamePassConfig) (asset_id : Option Nat) :
    List (String × Json) :=
  [("name", Json.str pass.name),
   ("description", Json.str (pass.description.getD "")),
   ("price", Json.num (pass.price_in_robux.getD 0))]
    ++ (match asset_id with
        | some aid => [("iconAssetId", Json.num aid)]
        | none => [])

/-- Update patch for a game pass (`commands.rs` lines 126-130): `name`
always, `description` and `price` when declared, `iconAssetId` when
resolved.  No field is derived from `is_for_sale`. -/
def buildGamePassPatch (pass : GamePassConfig) (asset_id : Option Nat) :
    List (String × Json) :=
  [("name", Json.str pass.name)]
    ++ (match pass.description with
        | some d => [("description", Json.str d)]
        | none => [])
    ++ (match pass.price_in_robux with
        | some p => [("price", Json.num p)]
        | none => [])
    ++ (match asset_id with
        | some aid => [("iconAssetId", Json.num aid)]
        | none => [])

/-- Create body for a developer product (`commands.rs` lines 171-176). -/
def buildProductCreateBody (prod : DeveloperProductConfig) (asset_id : Option Nat) :
    List (String × Json) :=
  [("name", Json.str prod.name),
   ("price", Json.num prod.price_in_robux),
   ("description", Json.str (prod.description.getD ""))]
    ++ (match asset_id with
        | some aid => [("iconAssetId", Json.num aid)]
        | none => [])

/-- Update patch for a developer product (`commands.rs` lines 184-188):
`name` and `price` always, `description` and `iconAssetId` when present.
No field is derived from `is_active`. -/
def buildProductPatch (prod : DeveloperProductConfig) (asset_id : Option Nat) :
    List (String × Json) :=
  [("name", Json.str prod.name), ("price", Json.num prod.price_in_robux)]
    ++ (match prod.description with
        | some d => [("description", Json.str d)]
        | none => [])
    ++ (match asset_id with
        | some aid => [("iconAssetId", Json.num aid)]
        | none => [])

/-- Create body for a badge (`commands.rs` lines 223-227). -/
def buildBadgeCreateBody (badge : BadgeConfig) (asset_id : Option Nat) :
    List (String × Json) :=
  [("name", Json.str badge.name),
   ("description", Json.str (badge.description.getD ""))]
    ++ (match asset_id with
        | some aid => [("iconImageId", Json.num aid)]
        | none => [])

/-- Update patch for a badge (`commands.rs` lines 235-239): `name` always,
`description`, `iconImageId` and `enabled` when present. -/
def buildBadgePatch (badge : BadgeConfig) (asset_id : Option Nat) :
    List (String × Json) :=
  [("name", Json.str badge.name)]
    ++ (match badge.description with
        | some d => [("description", Json.str d)]
        | none => [])
    ++ (match asset_id with
        | some aid => [("iconImageId", Json.num aid)]
        | none => [])
    ++ (match badge.is_enabled with
        | some e => [("enabled", Json.bool e)]
        | none => [])

/-! ## Per-resource reconciliation (`commands.rs` loop bodies)

Each loop body: icon step, id resolution, ledger upsert (before the update
call, mirroring line order 122 / 137), then the unconditional update call.
Results carry the possibly-mutated in-memory ledger and the trace of
remote calls. -/

/-- Loop body of `sync_game_passes` (`commands.rs` lines 87-137) for one
declared pass. -/
def sync_one_pass (env : Env) (dir : String) (remote : List (String × Nat))
    (ledger : CmdLedger) (pass : GamePassConfig) :
    Except SyncError Unit × CmdLedger × List Event :=
  match icon_step env dir ledger pass.name pass.icon with
  | (.error e, evs) => (.error e, ledger, evs)
  | (.ok (asset_id, icon_hash), evs1) =>
    match resolve_pass_id env ledger remote pass.name
        (buildGamePassCreateBody pass asset_id) with
    | (.error e, evs2) => (.error e, ledger, evs1 ++ evs2)
    | (.ok (id, _), evs2) =>
      let ledger1 := insertAssoc ledger pass.name
        { id := id, icon_hash := icon_hash, icon_asset_id := asset_id }
      let patch := buildGamePassPatch pass asset_id
      match env.updateGamePass id patch with
      | .error m =>
        (.error (.updateFailed m), ledger1, evs1 ++ evs2 ++ [.updateGamePass id patch])
      | .ok _ =>
        (.ok (), ledger1, evs1 ++ evs2 ++ [.updateGamePass id patch])

/-- Loop body of `sync_developer_products` (`commands.rs` lines 153-191). -/
def sync_one_product (env : Env) (dir : String) (remote : List (String × Nat))
    (ledger : CmdLedger) (prod : DeveloperProductConfig) :
    Except SyncError Unit × CmdLedger × List Event :=
  match icon_step env dir ledger prod.name prod.icon with
  | (.error e, evs) => (.error e, ledger, evs)
  | (.ok (asset_id, icon_hash), evs1) =>
    match resolve_product_id env ledger remote prod.name
        (buildProductCreateBody prod asset_id) with
    | (.error e, evs2) => (.error e, ledger, evs1 ++ evs2)
    | (.ok (id, _), evs2) =>
      let ledger1 := insertAssoc ledger prod.name
        { id := id, icon_hash := icon_hash, icon_asset_id := asset_id }
      let patch := buildProductPatch prod asset_id
      match env.updateDeveloperProduct id patch with
      | .error m =>
        (.error (.updateFailed m), ledger1, evs1 ++ evs2 ++ [.updateDeveloperProduct id patch])
      | .ok _ =>
        (.ok (), ledger1, evs1 ++ evs2 ++ [.updateDeveloperProduct id patch])

/-- Loop body of `sync_badges` (`commands.rs` lines 205-241). -/
def sync_one_badge (env : Env) (dir : String) (remote : List (String × Nat))
    (ledger : CmdLedger) (badge : BadgeConfig) :
    Except SyncError Unit × CmdLedger × List Event :=
  match icon_step env dir ledger badge.name badge.icon with
  | (.error e, evs) => (.error e, ledger, evs)
  | (.ok (asset_id, icon_hash), evs1) =>
    match resolve_badge_id env ledger remote badge.name
        (buildBadgeCreateBody badge asset_id) with
    | (.error e, evs2) => (.error e, ledger, evs1 ++ evs2)
    | (.ok (id, _), evs2) =>
      let ledger1 := insertAssoc ledger badge.name
        { id := id, icon_hash := icon_hash, icon_asset_id := asset_id }
      let patch := buildBadgePatch badge asset_id
      match env.updateBadge id patch with
      | .error m =>
        (.error (.updateFailed m), ledger1, evs1 ++ evs2 ++ [.updateBadge id patch])
      | .ok _ =>
        (.ok (), ledger1, evs1 ++ evs2 ++ [.updateBadge id patch])

/-- The `for pass in &config.game_passes` loop: sequential, and the `?`
operator inside the body makes the first failing resource return
immediately, leaving the remaining declared resources unattempted. -/
def sync_passes_list (env : Env) (dir : String) (remote : List (String × Nat)) :
    CmdLedger → List GamePassConfig → Except SyncError Unit × CmdLedger × List Event
  | ledger, [] => (.ok (), ledger, [])
  | ledger, pass :: rest =>
    match sync_one_pass env dir remote ledger pass with
    | (.error e, ledger1, evs) => (.error e, ledger1, evs)
    | (.ok _, ledger1, evs) =>
      match sync_passes_list env dir remote ledger1 rest with
      | (r, ledger2, evs2) => (r, ledger2, evs ++ evs2)

/-- The `for prod in &config.developer_products` loop. -/
def sync_products_list (env : Env) (dir : String) (remote : List (String × Nat)) :
    CmdLedger → List DeveloperProductConfig → Except SyncError Unit × CmdLedger × List Event
  | ledger, [] => (.ok (), ledger, [])
  | ledger, prod :: rest =>
    match sync_one_product env dir remote ledger prod with
    | (.error e, ledger1, evs) => (.error e, ledger1, evs)
    | (.ok _, ledger1, evs) =>
      match sync_products_list env dir remote ledger1 rest with
      | (r, ledger2, evs2) => (r, ledger2, evs ++ evs2)

/-- The `for badge in &config.badges` loop. -/
def sync_badges_list (env : Env) (dir : String) (remote : List (String × Nat)) :
    CmdLedger → List BadgeConfig → Except SyncError Unit × CmdLedger × List Event
  | ledger, [] => (.ok (), ledger, [])
  | ledger, badge :: rest =>
    match sync_one_badge env dir remote ledger badge with
    | (.error e, ledger1, evs) => (.error e, ledger1, evs)
    | (.ok _, ledger1, evs) =>
      match sync_badges_list env dir remote ledger1 rest with
      | (r, ledger2, evs2) => (r, ledger2, evs ++ evs2)

/-- Model of `sync_game_passes` (`commands.rs` lines 76-140): one listing
call with no cursor builds the remote directory, then the sequential
per-pass loop runs. -/
def sync_game_passes (env : Env) (dir : String) (ledger : CmdLedger)
    (passes : List GamePassConfig) : Except SyncError Unit × CmdLedger × List Event :=
  match env.listGamePasses none with
  | .error m => (.error (.listFailed m), ledger, [])
  | .ok resp => sync_passes_list env dir (build_remote_map resp.data) ledger passes

/-- Model of `sync_developer_products` (`commands.rs` lines 142-193). -/
def sync_developer_products (env : Env) (dir : String) (ledger : CmdLedger)
    (products : List DeveloperProductConfig) :
    Except SyncError Unit × CmdLedger × List Event :=
  match env.listDeveloperProducts none with
  | .error m => (.error (.listFailed m), ledger, [])
  | .ok resp => sync_products_list env dir (build_remote_map resp.data) ledger products

/-- Model of `sync_badges` (`commands.rs` lines 195-244). -/
def sync_badges (env : Env) (dir : String) (ledger : CmdLedger)
    (badges : List BadgeConfig) : Except SyncError Unit × CmdLedger × List Event :=
  match env.listBadges none with
  | .error m => (.error (.listFailed m), ledger, [])
  | .ok resp => sync_badges_list env dir (build_remote_map resp.data) ledger badges

/-- The declared configuration consumed by `run` (`config::RbxSyncConfig`,
restricted to the fields the reconciliation claims concern). -/
structure ConfigModel where
  assets_dir : String
  game_passes : List GamePassConfig
  developer_products : List DeveloperProductConfig
  badges : List BadgeConfig

/-- The per-category ledgers as `commands.rs` holds them in memory during
a run. -/
structure CmdState where
  game_passes : CmdLedger
  developer_products : CmdLedger
  badges : CmdLedger

/-- Model of `run` (`commands.rs` lines 10-52) restricted to resource
reconciliation: the three categories run in order, each `?`-propagating
its first error; `state.save` runs only after all three succeed.  `disk`
is the persisted ledger at run start; the returned `CmdState` is the
persisted ledger after the run (unchanged unless `save` was reached).
The universe-settings patch that precedes the categories is not modelled
(no claim concerns it); its failure likewise skips `save`. -/
def runModel (env : Env) (cfg : ConfigModel) (disk : CmdState) :
    Except SyncError Unit × CmdState × List Event :=
  match sync_game_passes env cfg.assets_dir disk.game_passes cfg.game_passes with
  | (.error e, _, evs1) => (.error e, disk, evs1)
  | (.ok _, gp, evs1) =>
    match sync_developer_products env cfg.assets_dir disk.developer_products
        cfg.developer_products with
    | (.error e, _, evs2) => (.error e, disk, evs1 ++ evs2)
    | (.ok _, dp, evs2) =>
      match sync_badges env cfg.assets_dir disk.badges cfg.badges with
      | (.error e, _, evs3) => (.error e, disk, evs1 ++ evs2 ++ evs3)
      | (.ok _, bd, evs3) =>
        (.ok (), { game_passes := gp, developer_products := dp, badges := bd },
         evs1 ++ evs2 ++ evs3)

/-! ## Asset upload polling (`api/mod.rs` lines 311-370)

`poll_operation` deserializes each poll body into `OperationResponse`
(`done: Option<bool>`, `response: Option<OperationResult>` with
`asset_id: Option<String>` under `camelCase`, `error: Option<OperationError>`
with `message: Option<String>`), then dispatches: error → `UploadFailed`;
`done` → asset id or "no asset ID" error; otherwise sleep and retry, up to
`max_attempts = 30`, after which it times out.  serde derive semantics:
a missing or `null` `Option` field is `None`; a present field of the wrong
JSON type fails the whole deserialization. -/

/-- Model of the poll-side `OperationResult` struct. -/
structure PollResult where
  asset_id : Option String

/-- Model of the poll-side `OperationError` struct. -/
structure PollError where
  message : Option String

/-- Model of the poll-side `OperationResponse` struct. -/
structure PollResponse where
  done : Option Bool
  response : Option PollResult
  error : Option PollError

/-- serde deserialization of an `Option<String>` field: absent or `null`
gives `None`, a string gives `Some`, any other JSON type is an error. -/
def parseOptString (v : Option Json) : Except String (Option String) :=
  match v with
  | none => .ok none
  | some .null => .ok none
  | some (.str s) => .ok (some s)
  | some _ => .error "invalid type: expected a string"

/-- serde deserialization of an `Option<bool>` field. -/
def parseOptBool (v : Option Json) : Except String (Option Bool) :=
  match v with
  | none => .ok none
  | some .null => .ok none
  | some (.bool b) => .ok (some b)
  | some _ => .error "invalid type: expected a boolean"

/-- serde deserialization of `OperationResult` (field `assetId` after
`rename_all = "camelCase"`). -/
def parsePollResult (j : Json) : Except String PollResult :=
  match j with
  | .obj fields =>
    match parseOptString (lookupAssoc fields "assetId") with
    | .error m => .error m
    | .ok a => .ok { asset_id := a }
  | _ => .error "invalid type: expected a map"

/-- serde deserialization of `Option<OperationResult>`. -/
def parseOptResult (v : Option Json) : Except String (Option PollResult) :=
  match v with
  | none => .ok none
  | some .null => .ok none
  | some j =>
    match parsePollResult j with
    | .error m => .error m
    | .ok r => .ok (some r)

/-- serde deserialization of `OperationError` (field `message`). -/
def parsePollErr (j : Json) : Except String PollError :=
  match j with
  | .obj fields =>
    match parseOptString (lookupAssoc fields "message") with
    | .error m => .error m
    | .ok a => .ok { message := a }
  | _ => .error "invalid type: expected a map"

/-- serde deserialization of `Option<OperationError>`. -/
def parseOptErr (v : Option Json) : Except String (Option PollError) :=
  match v with
  | none => .ok none
  | some .null => .ok none
  | some j =>
    match parsePollErr j with
    | .error m => .error m
    | .ok r => .ok (some r)

/-- serde deserialization of `OperationResponse` from a poll body. -/
def parsePollResponse (j : Json) : Except String PollResponse :=
  match j with
  | .obj fields =>
    match parseOptBool (lookupAssoc fields "done") with
    | .error m => .error m
    | .ok d =>
      match parseOptResult (lookupAssoc fields "response") with
      | .error m => .error m
      | .ok r =>
        match parseOptErr (lookupAssoc fields "error") with
        | .error m => .error m
        | .ok e => .ok { done := d, response := r, error := e }
  | _ => .error "invalid type: expected a map"

/-- Terminal outcomes of the poll loop. -/
inductive PollOutcome where
  | httpFailed (msg : String)
  | parseFailed (msg : String)
  | uploadFailed (msg : String)
  | noAssetId
  | timedOut (attempts : Nat)

/-- Model of `RobloxClient::max_attempts` in `poll_operation`. -/
def maxPollAttempts : Nat := 30

/-- The `for attempt in 1..=max_attempts` body of `poll_operation`:
`responses attempt` is attempt number `attempt`'s poll outcome
(`Except.error` = non-success HTTP status), `remaining` the attempts left.
Error field checked first, then `done` (defaulted to `false`), extracting
the nested `asset_id` string; falling out of the loop times out. -/
def poll_loop (responses : Nat → Except String Json) :
    Nat → Nat → Except PollOutcome String
  | _, 0 => .error (.timedOut maxPollAttempts)
  | attempt, r + 1 =>
    match responses attempt with
    | .error m => .error (.httpFailed m)
    | .ok body =>
      match parsePollResponse body with
      | .error m => .error (.parseFailed m)
      | .ok op =>
        match op.error with
        | some err => .error (.uploadFailed (err.message.getD "Unknown error"))
        | none =>
          if op.done.getD false then
            match op.response with
            | some res =>
              match res.asset_id with
              | some aid => .ok aid
              | none => .error .noAssetId
            | none => .error .noAssetId
          else poll_loop responses (attempt + 1) r

/-- Model of `RobloxClient::poll_operation` (`api/mod.rs` lines 311-370):
attempts numbered from 1, at most `maxPollAttempts` of them. -/
def poll_operation (responses : Nat → Except String Json) : Except PollOutcome String :=
  poll_loop responses 1 maxPollAttempts

/-! ## Concrete instances used by witnesses and counterexamples -/

/-- Benign remote-service oracle: every file exists, hashing yields
`"h1"`, uploads return asset id `77`, the game-pass listing reports one
remote pass `Y` with id `3`, creates return ids `55`/`56`/`57`, updates
succeed. -/
def exEnv : Env where
  fileExists := fun _ => true
  fileHash := fun _ => "h1"
  upload := fun _ => .ok 77
  listGamePasses := fun _ =>
    .ok { data := [Json.obj [("name", Json.str "Y"), ("id", Json.num 3)]],
          next_page_cursor := none }
  listDeveloperProducts := fun _ => .ok { data := [], next_page_cursor := none }
  listBadges := fun _ => .ok { data := [], next_page_cursor := none }
  createGamePass := fun _ => .ok (Json.obj [("id", Json.num 55)])
  createDeveloperProduct := fun _ => .ok (Json.obj [("id", Json.num 56)])
  createBadge := fun _ => .ok (Json.obj [("id", Json.num 57)])
  updateGamePass := fun _ _ => .ok ()
  updateDeveloperProduct := fun _ _ => .ok ()
  updateBadge := fun _ _ => .ok ()

/-- Oracle identical to `exEnv` except that no local file exists, so any
declared icon fails resolution. -/
def exEnvNoFiles : Env := { exEnv with fileExists := fun _ => false }

/-- A declared game pass with no icon. -/
def exPassPlain : GamePassConfig :=
  { name := "X", description := none, price_in_robux := none,
    icon := none, is_for_sale := none }

/-- A declared game pass whose icon file will be missing. -/
def exPassBadIcon : GamePassConfig :=
  { name := "B", description := none, price_in_robux := none,
    icon := some "bad.png", is_for_sale := none }

/-- A declared game pass `Y`, present remotely with id `3` under `exEnv`. -/
def exPassY : GamePassConfig :=
  { name := "Y", description := none, price_in_robux := none,
    icon := none, is_for_sale := none }

/-- A declared game pass with every optional field set, including the
sale flag. -/
def exPassSale : GamePassConfig :=
  { name := "S", description := some "d", price_in_robux := some 10,
    icon := none, is_for_sale := some true }

/-- Configuration declaring a bad-icon pass followed by a pass that would
reconcile successfully, then nothing else. -/
def exCfgBad : ConfigModel :=
  { assets_dir := "assets", game_passes := [exPassBadIcon, exPassY],
    developer_products := [], badges := [] }

/-- A persisted ledger holding one unrelated game-pass entry. -/
def exDisk : CmdState :=
  { game_passes := [("Z", { id := 1, icon_hash := none, icon_asset_id := none })],
    developer_products := [], badges := [] }

/-- Two-page listing: the first page is empty but points at cursor `c1`,
whose page lists the pass `X` with id `42`. -/
def exPages : Option String → Except String ListResponse := fun c =>
  match c with
  | none => .ok { data := [], next_page_cursor := some "c1" }
  | some _ =>
    .ok { data := [Json.obj [("name", Json.str "X"), ("id", Json.num 42)]],
          next_page_cursor := none }

/-- Poll responses whose first answer is terminal with a string asset id. -/
def exPollStr : Nat → Except String Json := fun _ =>
  .ok (Json.obj [("done", Json.bool true),
                 ("response", Json.obj [("assetId", Json.str "123")])])

/-- Poll responses whose first answer is terminal with a numeric asset id. -/
def exPollNum : Nat → Except String Json := fun _ =>
  .ok (Json.obj [("done", Json.bool true),
                 ("response", Json.obj [("assetId", Json.num 123)])])

/-- Poll responses that never terminate: every answer is `done = false`. -/
def exPollPending : Nat → Except String Json := fun _ =>
  .ok (Json.obj [("done", Json.bool false)])

/-- Poll responses whose first answer carries an embedded error. -/
def exPollErr : Nat → Except String Json := fun _ =>
  .ok (Json.obj [("error", Json.obj [("message", Json.str "boom")])])

/-- Poll responses whose first answer is done with neither error nor id. -/
def exPollNoId : Nat → Except String Json := fun _ =>
  .ok (Json.obj [("done", Json.bool true)])

/-! ## Helper lemmas -/

theorem lookupAssoc_insertAssoc {α β : Type} [DecidableEq α]
    (m : List (α × β)) (k q : α) (v : β) :
    lookupAssoc (insertAssoc m k v) q = if q = k then some v else lookupAssoc m q := by
  induction m with
  | nil => simp [insertAssoc, lookupAssoc]
  | cons hd tl ih =>
    obtain ⟨k1, v1⟩ := hd
    by_cases h1 : k1 = k
    · subst h1
      by_cases h2 : q = k1 <;> simp [insertAssoc, lookupAssoc, h2]
    · by_cases h2 : q = k1
      · subst h2
        simp [insertAssoc, lookupAssoc, h1, Ne.symm h1]
      · simp [insertAssoc, lookupAssoc, h1, h2, ih]

theorem lookupAssoc_foldl_rmStep (items : List Json) (name : String) :
    ∀ acc : List (String × Nat),
      lookupAssoc (items.foldl rmStep acc) name
        = items.foldl (lastStep name) (lookupAssoc acc name) := by
  induction items with
  | nil => intro acc; rfl
  | cons item rest ih =>
    intro acc
    have hstep : lookupAssoc (rmStep acc item) name
        = lastStep name (lookupAssoc acc name) item := by
      unfold rmStep lastStep
      cases hn : (item.getField "name").as_str with
      | none => rfl
      | some n =>
        cases hi : (item.getField "id").as_u64 with
        | none => rfl
        | some id => simp [lookupAssoc_insertAssoc]
    simp only [List.foldl_cons, ih, hstep]

/-- The constructed remote map answers lookups with the id of the last
well-formed listed item of that name; malformed items never contribute. -/
theorem build_remote_map_lookup (items : List Json) (name : String) :
    lookupAssoc (build_remote_map items) name = lastWellFormedId items name :=
  lookupAssoc_foldl_rmStep items name []

theorem rmStep_malformed (acc : List (String × Nat)) (item : Json)
    (h : wellFormedItem item = false) : rmStep acc item = acc := by
  unfold wellFormedItem at h
  unfold rmStep
  cases hn : (item.getField "name").as_str with
  | none => rfl
  | some n =>
    cases hi : (item.getField "id").as_u64 with
    | none => rfl
    | some id => simp [hn, hi] at h

/-! ## Claim theorems -/

/-- C8: for every project root with no persisted state record,
`SyncState::load` returns a successfully constructed empty ledger — all
three category maps empty — rather than an error, whatever the YAML
parser would do, so a first run can proceed. -/
theorem claim_c8 (parse : String → Except String SyncState) :
    SyncState.load none parse = .ok SyncState.empty ∧
    SyncState.empty.game_passes = [] ∧
    SyncState.empty.developer_products = [] ∧
    SyncState.empty.badges = [] :=
  ⟨rfl, rfl, rfl, rfl⟩

/-- C9: every ledger upsert stores `None` in the fields that do not apply
to its category, regardless of the entry's prior contents:
`update_game_pass` stores `is_enabled = None`, `update_developer_product`
stores `is_for_sale = None` and `is_enabled = None`, `update_badge` stores
`price = None` and `is_for_sale = None`.  The stored entry is given in
full, so no value from a previous entry survives in any field. -/
theorem claim_c9 (s : SyncState) (id : Nat) (name : String)
    (description : Option String) (price : Option Nat) (is_for_sale : Option Bool)
    (is_enabled : Option Bool) (icon_hash : Option String) (icon_asset_id : Option Nat) :
    lookupAssoc (s.update_game_pass id name description price is_for_sale
        icon_hash icon_asset_id).game_passes id
      = some { name := name, description := description, price := price,
               is_for_sale := is_for_sale, is_enabled := none,
               icon_hash := icon_hash, icon_asset_id := icon_asset_id } ∧
    lookupAssoc (s.update_developer_product id name description price
        icon_hash icon_asset_id).developer_products id
      = some { name := name, description := description, price := price,
               is_for_sale := none, is_enabled := none,
               icon_hash := icon_hash, icon_asset_id := icon_asset_id } ∧
    lookupAssoc (s.update_badge id name description is_enabled
        icon_hash icon_asset_id).badges id
      = some { name := name, description := description, price := none,
               is_for_sale := none, is_enabled := is_enabled,
               icon_hash := icon_hash, icon_asset_id := icon_asset_id } := by
  refine ⟨?_, ?_, ?_⟩ <;>
    simp [SyncState.update_game_pass, SyncState.update_developer_product,
      SyncState.update_badge, lookupAssoc_insertAssoc]

/-- C1: for a resource whose declared icon file exists (`fileOk = true`,
`hash` being the SHA-256 hex digest of the file's current bytes), if the
consulted ledger entry records `icon_hash = hash` and a present
`icon_asset_id`, then `ensure_icon` returns that recorded asset id paired
with the hash and performs no upload; in every other case (no entry,
differing or absent recorded hash, or missing asset id) exactly one
upload is performed. -/
theorem claim_c1 (hash path : String) (entry : Option LedgerEntry)
    (upload : Except String Nat) :
    (∀ e sid, entry = some e → e.icon_hash = some hash → e.icon_asset_id = some sid →
      ensure_icon true hash entry upload path = (.ok (sid, hash), [])) ∧
    ((¬ ∃ e sid, entry = some e ∧ e.icon_hash = some hash ∧ e.icon_asset_id = some sid) →
      (ensure_icon true hash entry upload path).2 = [Event.uploadAsset path]) := by
  constructor
  · intro e sid he hh ha
    subst he
    simp [ensure_icon, hh, ha]
  · intro hno
    cases entry with
    | none =>
      cases upload <;> simp [ensure_icon]
    | some e =>
      cases hh : e.icon_hash with
      | none => cases ha : e.icon_asset_id <;> cases upload <;> simp [ensure_icon, hh, ha]
      | some sh =>
        cases ha : e.icon_asset_id with
        | none => cases upload <;> simp [ensure_icon, hh, ha]
        | some sid =>
          have hne : sh ≠ hash := by
            intro hEq
            exact hno ⟨e, sid, rfl, by rw [hh, hEq], ha⟩
          cases upload <;> simp [ensure_icon, hh, ha, hne]

/-- Witness for C1 at concrete inputs: a matching entry reuses asset id
`42` with no upload; an entry with a different recorded hash triggers
exactly one upload. -/
theorem claim_c1_witness :
    ensure_icon true "h1"
        (some { id := 9, icon_hash := some "h1", icon_asset_id := some 42 })
        (.ok 77) "assets/icon.png"
      = (.ok (42, "h1"), []) ∧
    (ensure_icon true "h1"
        (some { id := 9, icon_hash := some "h0", icon_asset_id := some 42 })
        (.ok 77) "assets/icon.png").2
      = [Event.uploadAsset "assets/icon.png"] := by
  constructor
  · exact (claim_c1 "h1" "assets/icon.png" _ (.ok 77)).1 _ 42 rfl rfl rfl
  · refine (claim_c1 "h1" "assets/icon.png" _ (.ok 77)).2 ?_
    rintro ⟨e, sid, he, hh, ha⟩
    cases he
    simp at hh

/-- C2: the remote identifier used for the update call and the ledger
write is resolved by trying, in order, the ledger lookup by name, then
the remote directory map, and only when both are absent is a create call
issued whose returned `"id"` is used.  In particular a ledger id `A`
wins over any remote directory id `B`.  The last conjunct ties the
resolved id to `sync_one_pass`: the ledger upsert and the update call
both carry exactly the resolved id. -/
theorem claim_c2 (env : Env) (dir : String) (remote : List (String × Nat))
    (ledger : CmdLedger) (pass : GamePassConfig) (name : String)
    (body : List (String × Json)) :
    (∀ A, ledgerId ledger name = some A →
      resolve_pass_id env ledger remote name body = (.ok (A, .fromLedger), [])) ∧
    (∀ B, ledgerId ledger name = none → lookupAssoc remote name = some B →
      resolve_pass_id env ledger remote name body = (.ok (B, .fromRemote), [])) ∧
    (ledgerId ledger name = none → lookupAssoc remote name = none →
      (resolve_pass_id env ledger remote name body).2 = [Event.createGamePass body] ∧
      ∀ id src, (resolve_pass_id env ledger remote name body).1 = .ok (id, src) →
        src = .created ∧
        ∃ resp, env.createGamePass body = .ok resp ∧ (resp.getField "id").as_u64 = some id) ∧
    (∀ aid h evs1 id src evs2,
      icon_step env dir ledger pass.name pass.icon = (.ok (aid, h), evs1) →
      resolve_pass_id env ledger remote pass.name
          (buildGamePassCreateBody pass aid) = (.ok (id, src), evs2) →
      (sync_one_pass env dir remote ledger pass).2.1
        = insertAssoc ledger pass.name
            { id := id, icon_hash := h, icon_asset_id := aid } ∧
      (sync_one_pass env dir remote ledger pass).2.2
        = evs1 ++ evs2 ++ [Event.updateGamePass id (buildGamePassPatch pass aid)]) := by
  refine ⟨?_, ?_, ?_, ?_⟩
  · intro A hA
    simp [resolve_pass_id, resolve_id, hA]
  · intro B hA hB
    simp [resolve_pass_id, resolve_id, hA, hB]
  · intro hA hB
    cases hc : env.createGamePass body with
    | error m =>
      refine ⟨by simp [resolve_pass_id, resolve_id, hA, hB, hc], ?_⟩
      intro id src hok
      simp [resolve_pass_id, resolve_id, hA, hB, hc] at hok
    | ok resp =>
      cases hid : (resp.getField "id").as_u64 with
      | none =>
        refine ⟨by simp [resolve_pass_id, resolve_id, hA, hB, hc, hid], ?_⟩
        intro id src hok
        simp [resolve_pass_id, resolve_id, hA, hB, hc, hid] at hok
      | some rid =>
        refine ⟨by simp [resolve_pass_id, resolve_id, hA, hB, hc, hid], ?_⟩
        intro id src hok
        simp [resolve_pass_id, resolve_id, hA, hB, hc, hid] at hok
        obtain ⟨h1, h2⟩ := hok
        exact ⟨h2.symm, resp, rfl, by rw [hid, h1]⟩
  · intro aid h evs1 id src evs2 hicon hres
    unfold sync_one_pass
    rw [hicon]
    simp only [hres]
    cases env.updateGamePass id (buildGamePassPatch pass aid) <;> simp

/-- Witness for C2: with a ledger mapping `X` to id `5` and the remote
directory mapping `X` to `9`, resolution returns `5` from the ledger;
with an empty ledger it returns `9` from the remote map; and for the
concrete pass `X` the ledger write and the single update call carry the
resolved id. -/
theorem claim_c2_witness :
    resolve_pass_id exEnv
        [("X", { id := 5, icon_hash := none, icon_asset_id := none })]
        [("X", 9)] "X" []
      = (.ok (5, .fromLedger), []) ∧
    resolve_pass_id exEnv [] [("X", 9)] "X" [] = (.ok (9, .fromRemote), []) ∧
    (sync_one_pass exEnv "assets" [("X", 9)] [] exPassPlain).2.1
      = [("X", { id := 9, icon_hash := none, icon_asset_id := none })] ∧
    (sync_one_pass exEnv "assets" [("X", 9)] [] exPassPlain).2.2
      = [Event.updateGamePass 9 (buildGamePassPatch exPassPlain none)] := by
  refine ⟨?_, ?_, ?_⟩
  · exact (claim_c2 exEnv "assets" [("X", 9)] _ exPassPlain "X" []).1 5 rfl
  · exact (claim_c2 exEnv "assets" [("X", 9)] [] exPassPlain "X" []).2.1 9 rfl rfl
  · have := (claim_c2 exEnv "assets" [("X", 9)] [] exPassPlain "X" []).2.2.2
      none none [] 9 IdSource.fromRemote [] rfl rfl
    exact ⟨this.1, this.2⟩

/-- C7: whenever a run fails — in particular whenever any resource's
reconciliation fails at the icon, identity-resolution or create/update
step — `state.save` is never reached, so the persisted ledger after the
run equals the persisted ledger before it: every resource's entry (or
absence of one) is exactly what it was, and no partial or premature
upsert is observable.  (The in-memory upsert that precedes a failed
update call is discarded with the process.) -/
theorem claim_c7 (env : Env) (cfg : ConfigModel) (disk : CmdState) (e : SyncError)
    (hfail : (runModel env cfg disk).1 = .error e) :
    (runModel env cfg disk).2.1 = disk := by
  unfold runModel at hfail ⊢
  rcases h1 : sync_game_passes env cfg.assets_dir disk.game_passes cfg.game_passes
    with ⟨r1, gp, evs1⟩
  cases r1 with
  | error e1 => rfl
  | ok u1 =>
    rcases h2 : sync_developer_products env cfg.assets_dir disk.developer_products
        cfg.developer_products with ⟨r2, dp, evs2⟩
    cases r2 with
    | error e2 => rfl
    | ok u2 =>
      rcases h3 : sync_badges env cfg.assets_dir disk.badges cfg.badges
        with ⟨r3, bd, evs3⟩
      cases r3 with
      | error e3 => rfl
      | ok u3 =>
        rw [h1, h2, h3] at hfail
        simp at hfail

/-- Witness for C7: a run over `exCfgBad` fails on the missing icon file
of its first pass, and the persisted ledger is exactly `exDisk`. -/
theorem claim_c7_witness :
    (runModel exEnvNoFiles exCfgBad exDisk).1
      = .error (.iconNotFound "assets/bad.png") ∧
    (runModel exEnvNoFiles exCfgBad exDisk).2.1 = exDisk :=
  ⟨rfl, claim_c7 exEnvNoFiles exCfgBad exDisk (.iconNotFound "assets/bad.png") rfl⟩

/-- C5 counterexample: under `exEnvNoFiles`, the first declared pass `B`
fails icon resolution, and the run ends with that error having issued no
remote call at all — in particular the second declared pass `Y` (which
exists remotely with id `3` and would otherwise be updated) is never
attempted, and neither are the other categories.  This refutes the
claimed per-resource failure isolation. -/
theorem claim_c5_cex :
    runModel exEnvNoFiles exCfgBad exDisk
      = (.error (.iconNotFound "assets/bad.png"), exDisk, []) ∧
    exCfgBad.game_passes = [exPassBadIcon, exPassY] ∧
    exEnvNoFiles.listGamePasses none
      = .ok { data := [Json.obj [("name", Json.str "Y"), ("id", Json.num 3)]],
              next_page_cursor := none } :=
  ⟨rfl, rfl, rfl⟩

/-- C5 amended: a failure in reconciling one resource aborts the whole
run via `?`-propagation — the remaining resources of the same category
are not attempted (the loop result is exactly the failing resource's
result), a category failure short-circuits the later categories, and the
persisted ledger is left untouched.  The error is propagated as-is, not
collected into a per-resource report. -/
theorem claim_c5_amended (env : Env) (dir : String) (remote : List (String × Nat))
    (ledger l1 : CmdLedger) (pass : GamePassConfig) (rest : List GamePassConfig)
    (e : SyncError) (evs : List Event)
    (hfail : sync_one_pass env dir remote ledger pass = (.error e, l1, evs)) :
    sync_passes_list env dir remote ledger (pass :: rest) = (.error e, l1, evs) ∧
    ∀ cfg disk l2 evs1,
      sync_game_passes env cfg.assets_dir disk.game_passes cfg.game_passes
        = (.error e, l2, evs1) →
      runModel env cfg disk = (.error e, disk, evs1) := by
  constructor
  · unfold sync_passes_list
    rw [hfail]
  · intro cfg disk l2 evs1 hcat
    unfold runModel
    rw [hcat]

/-- Witness for C5 amended: the concrete failing pass `B` makes the loop
over `[B, Y]` return its error without touching `Y`, and the run over
`exCfgBad` returns that error with the persisted ledger unchanged. -/
theorem claim_c5_amended_witness :
    sync_passes_list exEnvNoFiles "assets"
        (build_remote_map [Json.obj [("name", Json.str "Y"), ("id", Json.num 3)]])
        exDisk.game_passes [exPassBadIcon, exPassY]
      = (.error (.iconNotFound "assets/bad.png"), exDisk.game_passes, []) ∧
    runModel exEnvNoFiles exCfgBad exDisk
      = (.error (.iconNotFound "assets/bad.png"), exDisk, []) := by
  have h := claim_c5_amended exEnvNoFiles "assets"
    (build_remote_map [Json.obj [("name", Json.str "Y"), ("id", Json.num 3)]])
    exDisk.game_passes exDisk.game_passes exPassBadIcon [exPassY]
    (.iconNotFound "assets/bad.png") [] rfl
  exact ⟨h.1, h.2 exCfgBad exDisk exDisk.game_passes [] rfl⟩

/-- C6 counterexample: the declared pass `S` has `is_for_sale = some true`
and reaches the update step (the remote directory supplies id `9`), yet
the update call's patch is exactly name/description/price — it carries no
field derived from the declared sale flag, refuting "carrying the full
current declared field set (... sale/enabled flag ...)". -/
theorem claim_c6_cex :
    sync_one_pass exEnv "assets" [("S", 9)] [] exPassSale
      = (.ok (), [("S", { id := 9, icon_hash := none, icon_asset_id := none })],
         [Event.updateGamePass 9
            [("name", Json.str "S"), ("description", Json.str "d"),
             ("price", Json.num 10)]]) ∧
    exPassSale.is_for_sale = some true ∧
    lookupAssoc [("name", Json.str "S"), ("description", Json.str "d"),
        ("price", Json.num 10)] "isForSale" = none :=
  ⟨rfl, rfl, rfl⟩

/-- C6 amended: every resource that reaches the update step gets exactly
one update call, whose patch carries the declared name, description,
price and resolved icon identifier — whatever the ledger holds, so the
call is never skipped by diffing against the ledger — but the declared
sale flags are dropped: a game-pass patch only ever contains the keys
`name`/`description`/`price`/`iconAssetId` (never `is_for_sale`), a
product patch only `name`/`price`/`description`/`iconAssetId` (never
`is_active`); only badges carry their declared `enabled` flag. -/
theorem claim_c6_amended (env : Env) (dir : String) (remote : List (String × Nat))
    (ledger : CmdLedger) (pass : GamePassConfig) :
    (∀ aid h evs1 id src evs2,
      icon_step env dir ledger pass.name pass.icon = (.ok (aid, h), evs1) →
      resolve_pass_id env ledger remote pass.name
          (buildGamePassCreateBody pass aid) = (.ok (id, src), evs2) →
      (sync_one_pass env dir remote ledger pass).2.2
        = evs1 ++ evs2 ++ [Event.updateGamePass id (buildGamePassPatch pass aid)]) ∧
    (∀ aid, ("name", Json.str pass.name) ∈ buildGamePassPatch pass aid) ∧
    (∀ aid d, pass.description = some d →
      ("description", Json.str d) ∈ buildGamePassPatch pass aid) ∧
    (∀ aid p, pass.price_in_robux = some p →
      ("price", Json.num p) ∈ buildGamePassPatch pass aid) ∧
    (∀ a, ("iconAssetId", Json.num a) ∈ buildGamePassPatch pass (some a)) ∧
    (∀ aid k v, (k, v) ∈ buildGamePassPatch pass aid →
      k = "name" ∨ k = "description" ∨ k = "price" ∨ k = "iconAssetId") ∧
    (∀ prod : DeveloperProductConfig, ∀ aid k v, (k, v) ∈ buildProductPatch prod aid →
      k = "name" ∨ k = "price" ∨ k = "description" ∨ k = "iconAssetId") ∧
    (∀ badge : BadgeConfig, ∀ aid e, badge.is_enabled = some e →
      ("enabled", Json.bool e) ∈ buildBadgePatch badge aid) := by
  refine ⟨?_, ?_, ?_, ?_, ?_, ?_, ?_, ?_⟩
  · intro aid h evs1 id src evs2 hicon hres
    unfold sync_one_pass
    rw [hicon]
    simp only [hres]
    cases env.updateGamePass id (buildGamePassPatch pass aid) <;> simp
  · intro aid
    simp [buildGamePassPatch]
  · intro aid d hd
    simp [buildGamePassPatch, hd]
  · intro aid p hp
    simp [buildGamePassPatch, hp]
  · intro a
    simp [buildGamePassPatch]
  · intro aid k v hmem
    unfold buildGamePassPatch at hmem
    revert hmem
    rcases pass.description with _ | d <;> rcases pass.price_in_robux with _ | p <;>
      rcases aid with _ | a <;> intro hmem <;> simp at hmem <;> tauto
  · intro prod aid k v hmem
    unfold buildProductPatch at hmem
    revert hmem
    rcases prod.description with _ | d <;> rcases aid with _ | a <;>
      intro hmem <;> simp at hmem <;> tauto
  · intro badge aid e he
    simp [buildBadgePatch, he]

/-- Witness for C6 amended at the concrete pass `S`: the single update
call carries the built patch, which holds the declared description. -/
theorem claim_c6_amended_witness :
    (sync_one_pass exEnv "assets" [("S", 9)] [] exPassSale).2.2
      = [Event.updateGamePass 9 (buildGamePassPatch exPassSale none)] ∧
    ("description", Json.str "d") ∈ buildGamePassPatch exPassSale none := by
  have h := claim_c6_amended exEnv "assets" [("S", 9)] [] exPassSale
  refine ⟨?_, h.2.2.1 none "d" rfl⟩
  have h1 := h.1 none none [] 9 IdSource.fromRemote [] rfl rfl
  simpa using h1

/-- C3 counterexample: `exPages` is a two-page listing — the first page
is empty and carries cursor `c1`, whose page lists pass `X` with id `42`
— yet the remote directory map the code builds is empty: the cursor is
never followed, so the listed item `X` is missing from the map, refuting
"the resulting name-to-identifier map contains every listed item across
all pages". -/
theorem claim_c3_cex :
    exPages none = .ok { data := [], next_page_cursor := some "c1" } ∧
    exPages (some "c1")
      = .ok { data := [Json.obj [("name", Json.str "X"), ("id", Json.num 42)]],
              next_page_cursor := none } ∧
    build_first_page_map exPages = .ok [] ∧
    lookupAssoc ([] : List (String × Nat)) "X" = none :=
  ⟨rfl, rfl, rfl, rfl⟩

/-- C3 amended: the remote directory is built from a single listing call
with no cursor; the resulting map contains exactly the well-formed items
of that first page, last-seen-wins on duplicate names; later pages are
never requested, so their items are absent. -/
theorem claim_c3_amended (list : Option String → Except String ListResponse)
    (resp : ListResponse) (hfirst : list none = .ok resp) :
    build_first_page_map list = .ok (build_remote_map resp.data) ∧
    ∀ name, lookupAssoc (build_remote_map resp.data) name
      = lastWellFormedId resp.data name := by
  constructor
  · unfold build_first_page_map
    rw [hfirst]
  · intro name
    exact build_remote_map_lookup resp.data name

/-- Witness for C3 amended at the concrete two-page listing: the map is
that of the empty first page. -/
theorem claim_c3_amended_witness :
    build_first_page_map exPages = .ok (build_remote_map []) ∧
    lookupAssoc (build_remote_map []) "X" = lastWellFormedId [] "X" := by
  have h := claim_c3_amended exPages { data := [], next_page_cursor := some "c1" } rfl
  exact ⟨h.1, h.2 "X"⟩

/-- C10: an item lacking a string `"name"` or a `u64` `"id"` is silently
omitted from the remote map — deleting it from the listing leaves the
map unchanged, and map construction is a total function (it never
fails).  Consequently such an item can never be matched during identity
resolution: a declared name absent from the ledger whose only remote
counterpart is malformed goes to the create call. -/
theorem claim_c10 (xs ys : List Json) (bad : Json)
    (hbad : wellFormedItem bad = false) :
    build_remote_map (xs ++ bad :: ys) = build_remote_map (xs ++ ys) ∧
    ∀ (env : Env) (ledger : CmdLedger) (name : String) (body : List (String × Json)),
      ledgerId ledger name = none →
      lookupAssoc (build_remote_map (xs ++ bad :: ys)) name = none →
      (resolve_pass_id env ledger (build_remote_map (xs ++ bad :: ys)) name body).2
        = [Event.createGamePass body] := by
  have hmap : build_remote_map (xs ++ bad :: ys) = build_remote_map (xs ++ ys) := by
    unfold build_remote_map
    rw [List.foldl_append, List.foldl_append, List.foldl_cons,
      rmStep_malformed _ _ hbad]
  refine ⟨hmap, ?_⟩
  intro env ledger name body hledger hremote
  unfold resolve_pass_id resolve_id
  rw [hledger, hremote]
  cases hc : env.createGamePass body with
  | error m => rfl
  | ok resp =>
    rcases h2 : (resp.getField "id").as_u64 with _ | rid <;> simp [h2]

/-- Witness for C10: dropping the nameless item from a concrete listing
leaves the map unchanged, and resolving the unlisted name `Q` issues the
create call. -/
theorem claim_c10_witness :
    build_remote_map
        [Json.obj [("name", Json.str "Y"), ("id", Json.num 3)],
         Json.obj [("id", Json.num 7)]]
      = build_remote_map [Json.obj [("name", Json.str "Y"), ("id", Json.num 3)]] ∧
    (resolve_pass_id exEnv []
        (build_remote_map
          [Json.obj [("name", Json.str "Y"), ("id", Json.num 3)],
           Json.obj [("id", Json.num 7)]])
        "Q" []).2
      = [Event.createGamePass []] := by
  have h := claim_c10 [Json.obj [("name", Json.str "Y"), ("id", Json.num 3)]] []
    (Json.obj [("id", Json.num 7)]) rfl
  exact ⟨h.1, h.2 exEnv [] "Q" [] rfl rfl⟩

/-- C4 counterexample: a poll response with `done = true` and the asset
identifier JSON-encoded as the number `123` is not accepted — the
`Option<String>` field fails deserialization and the poll errors —
refuting "accepting it whether JSON-encoded as a number or a string". -/
theorem claim_c4_cex :
    exPollNum 1
      = .ok (Json.obj [("done", Json.bool true),
                       ("response", Json.obj [("assetId", Json.num 123)])]) ∧
    poll_operation exPollNum = .error (.parseFailed "invalid type: expected a string") :=
  ⟨rfl, rfl⟩

/-- C4 amended: for every sequence of poll responses, a response with an
embedded error fails with the error's message (defaulting to "Unknown
error"); a response with `done = true` and a string-encoded asset
identifier returns it (the string is parsed into an integer later, by
`ensure_icon`, not at the poll boundary — and a number-encoded identifier
fails deserialization instead of being accepted); a response with
`done = true` and neither error nor identifier fails with the
no-identifier error; and if no terminal response arrives within the
bounded maximum attempt count the loop fails with a timeout error rather
than polling forever. -/
theorem claim_c4_amended (responses : Nat → Except String Json) :
    (∀ attempt r body op err,
      responses attempt = .ok body → parsePollResponse body = .ok op →
      op.error = some err →
      poll_loop responses attempt (r + 1)
        = .error (.uploadFailed (err.message.getD "Unknown error"))) ∧
    (∀ attempt r body op res aid,
      responses attempt = .ok body → parsePollResponse body = .ok op →
      op.error = none → op.done = some true → op.response = some res →
      res.asset_id = some aid →
      poll_loop responses attempt (r + 1) = .ok aid) ∧
    (∀ attempt r body op,
      responses attempt = .ok body → parsePollResponse body = .ok op →
      op.error = none → op.done = some true →
      (op.response = none ∨ ∃ res, op.response = some res ∧ res.asset_id = none) →
      poll_loop responses attempt (r + 1) = .error .noAssetId) ∧
    ((∀ n, ∃ body op, responses n = .ok body ∧ parsePollResponse body = .ok op ∧
        op.error = none ∧ op.done.getD false = false) →
      poll_operation responses = .error (.timedOut maxPollAttempts)) ∧
    (∀ attempt r fields d rest n,
      responses attempt = .ok (Json.obj fields) →
      parseOptBool (lookupAssoc fields "done") = .ok d →
      lookupAssoc fields "response" = some (Json.obj rest) →
      lookupAssoc rest "assetId" = some (Json.num n) →
      poll_loop responses attempt (r + 1)
        = .error (.parseFailed "invalid type: expected a string")) := by
  refine ⟨?_, ?_, ?_, ?_, ?_⟩
  · intro attempt r body op err hresp hparse herr
    simp [poll_loop, hresp, hparse, herr]
  · intro attempt r body op res aid hresp hparse herr hdone hres haid
    simp [poll_loop, hresp, hparse, herr, hdone, hres, haid]
  · intro attempt r body op hresp hparse herr hdone hno
    rcases hno with hres | ⟨res, hres, haid⟩
    · simp [poll_loop, hresp, hparse, herr, hdone, hres]
    · simp [poll_loop, hresp, hparse, herr, hdone, hres, haid]
  · intro hall
    unfold poll_operation
    suffices h : ∀ r attempt, poll_loop responses attempt r
        = .error (.timedOut maxPollAttempts) from h maxPollAttempts 1
    intro r
    induction r with
    | zero => intro attempt; rfl
    | succ r ih =>
      intro attempt
      obtain ⟨body, op, hresp, hparse, herr, hdone⟩ := hall attempt
      simp only [poll_loop, hresp, hparse, herr, hdone]
      simpa using ih (attempt + 1)
  · intro attempt r fields d rest n hresp hd hr ha
    simp [poll_loop, hresp, parsePollResponse, hd, parseOptResult, hr,
      parsePollResult, ha, parseOptString]

/-- Witness for C4 amended: the four terminal behaviours and the numeric
rejection at concrete poll sequences. -/
theorem claim_c4_amended_witness :
    poll_loop exPollErr 1 maxPollAttempts = .error (.uploadFailed "boom") ∧
    poll_loop exPollStr 1 maxPollAttempts = .ok "123" ∧
    poll_loop exPollNoId 1 maxPollAttempts = .error .noAssetId ∧
    poll_operation exPollPending = .error (.timedOut maxPollAttempts) ∧
    poll_loop exPollNum 1 maxPollAttempts
      = .error (.parseFailed "invalid type: expected a string") := by
  refine ⟨?_, ?_, ?_, ?_, ?_⟩
  · exact (claim_c4_amended exPollErr).1 1 29 _
      { done := none, response := none, error := some { message := some "boom" } }
      { message := some "boom" } rfl rfl rfl
  · exact (claim_c4_amended exPollStr).2.1 1 29 _
      { done := some true, response := some { asset_id := some "123" }, error := none }
      { asset_id := some "123" } "123" rfl rfl rfl rfl rfl rfl
  · exact (claim_c4_amended exPollNoId).2.2.1 1 29 _
      { done := some true, response := none, error := none }
      rfl rfl rfl rfl (Or.inl rfl)
  · exact (claim_c4_amended exPollPending).2.2.2.1
      (fun n => ⟨Json.obj [("done", Json.bool false)],
        { done := some false, response := none, error := none }, rfl, rfl, rfl, rfl⟩)
  · exact (claim_c4_amended exPollNum).2.2.2.2 1 29
      [("done", Json.bool true), ("response", Json.obj [("assetId", Json.num 123)])]
      (some true) [("assetId", Json.num 123)] 123 rfl rfl rfl rfl

end RbxSync
